import Mathlib

/-!
# SafeURL Checker — shallow embedding and verification

A shallow embedding of the scoring core of the SafeURL Checker repository:
the four category evaluators (TLS, security headers, cookies, WHOIS), the
shared `finalizeResult` clamping, the `Promise.allSettled`-style aggregation
of the four evaluator outcomes, and `summarizeOverall`.

Conventions of the embedding:
* JavaScript numbers that only ever hold integers (scores, penalties, day
  counts) are modelled as `Int`.
* JavaScript string falsiness (`undefined`, `null`, `""`) is modelled with
  `Option String` plus an explicit `jsTruthy` test (`none` and `some ""` are
  falsy).
* Network effects are modelled by quantifying over their observable outcome:
  each evaluator is a pure function of the data the network could have
  produced (a parsed response, a TLS handshake outcome, a WHOIS record, ...).
* External parsing libraries that the repository treats as collaborators
  (axios, set-cookie-parser, whois-json, psl, `Date` parsing) are modelled at
  their output boundary: the evaluator consumes already-parsed data, with the
  parse-failure cases represented explicitly.
-/

namespace URLChecker

/-- JavaScript truthiness of a possibly-absent string: `undefined`/`null`
(`none`) and the empty string are falsy. -/
def jsTruthy : Option String → Bool
  | none => false
  | some v => v != ""

/-- `array.filter(Boolean)` applied to a single possibly-absent string:
keeps the string only when it is truthy. -/
def truthyToList : Option String → List String
  | none => []
  | some v => if v = "" then [] else [v]

/-- The character list of a string, lower-cased (used to model the `/i`
regex flag and `toLowerCase()`). -/
def lcChars (s : String) : List Char := s.data.map Char.toLower

/-- `String.prototype.trim()`: strip leading and trailing whitespace. -/
def jsTrim (s : String) : String :=
  ⟨((s.data.dropWhile Char.isWhitespace).reverse.dropWhile Char.isWhitespace).reverse⟩

/-- Case-insensitive substring test: models `/pat/i.test(s)` for a regex
`pat` that is a plain literal string. -/
def containsCI (s pat : String) : Bool :=
  (lcChars s).tails.any fun t => (lcChars pat).isPrefixOf t

/-- `String.prototype.startsWith` (computes on the underlying character
lists). -/
def strStartsWith (s pat : String) : Bool := pat.data.isPrefixOf s.data

/-- Remove the first occurrence of a character from a character list:
models `String.prototype.replace` with an empty replacement, which replaces
only the first occurrence when given a plain string pattern. -/
def removeFirstCharOcc (c : Char) : List Char → List Char
  | [] => []
  | x :: xs => if x = c then xs else x :: removeFirstCharOcc c xs

/-- The colon removal `protocol.replace` performs in the TLS evaluator. -/
def removeFirstColon (s : String) : String := ⟨removeFirstCharOcc ':' s.data⟩

/-- The free-form `details` object attached to a `CategoryResult`, modelled
as a record of the optional fields the evaluators actually set; a field an
evaluator does not set stays `none`. -/
structure Details where
  protocol : Option String := none
  missing : Option (List String) := none
  totalCookies : Option Nat := none
  insecureCookies : Option Nat := none
  note : Option String := none
  error : Option String := none
  daysUntilExpiry : Option Int := none
  domainAgeDays : Option Int := none
  registrar : Option String := none
  domain : Option String := none
  hostname : Option String := none
  nameServers : Option (List String) := none
  deriving Repr, DecidableEq

/-- The result object produced by every evaluator and by the aggregation
fallback. -/
structure CategoryResult where
  key : String
  label : String
  score : Int
  maxScore : Int
  passed : Bool
  warnings : List String
  details : Details
  deriving Repr, DecidableEq

/-- `MAX_SCORE`, the same constant `25` in all four check modules. -/
def MAX_SCORE : Int := 25

/-- `PASSING_THRESHOLD`, the same constant `18` in all four check modules. -/
def PASSING_THRESHOLD : Int := 18

/-- `finalizeResult` as defined identically in `tls.js`, `headers.js`,
`cookies.js` and `whois.js`: clamps the score into `[0, MAX_SCORE]`
(`Math.round` is the identity here because every call site passes an
integer score) and derives `passed` from the clamped score. -/
def finalizeResult (key label : String) (score : Int) (warnings : List String)
    (details : Details) : CategoryResult :=
  let boundedScore := max 0 (min MAX_SCORE score)
  { key := key, label := label, score := boundedScore, maxScore := MAX_SCORE,
    passed := decide (boundedScore ≥ PASSING_THRESHOLD),
    warnings := warnings, details := details }

/-! ## Cookie evaluator (`cookies.js`) -/

/-- A cookie as produced by `set-cookie-parser` (the external tokenizer is
modelled at its output boundary): the attributes `checkCookies` inspects. -/
structure Cookie where
  name : String
  secure : Bool := false
  httpOnly : Bool := false
  sameSite : Option String := none
  path : Option String := none
  domain : Option String := none
  deriving Repr, DecidableEq

/-- `sanitizeSameSite`: falsy values become `undefined`, otherwise the value
is lower-cased. -/
def sanitizeSameSite : Option String → Option String
  | none => none
  | some v => if v = "" then none else some ⟨lcChars v⟩

/-- `analyzeCookieIssues`: the list of per-cookie issues, in source order. -/
def analyzeCookieIssues (cookie : Cookie) : List String :=
  let sameSite := sanitizeSameSite cookie.sameSite
  (if !cookie.secure then ["Missing Secure attribute."] else [])
  ++ (if !cookie.httpOnly then ["Missing HttpOnly attribute."] else [])
  ++ (match sameSite with
      | none => ["Missing SameSite attribute."]
      | some s =>
        if s = "none" && !cookie.secure then
          ["SameSite=None cookies must also be Secure."] else [])
  ++ (if strStartsWith cookie.name "__Secure-" && !cookie.secure then
        ["__Secure- cookies must set the Secure flag."] else [])
  ++ (if strStartsWith cookie.name "__Host-" then
        (if !cookie.secure then ["__Host- cookies must set the Secure flag."] else [])
        ++ (if cookie.path ≠ some "/" then ["__Host- cookies must have Path=/"] else [])
        ++ (if jsTruthy cookie.domain then
              ["__Host- cookies must not specify a Domain attribute."] else [])
      else [])

/-- One warning line per insecure cookie: name plus its issues joined by a
space. -/
def cookieWarning (cookie : Cookie) : String :=
  cookie.name ++ ": " ++ String.intercalate " " (analyzeCookieIssues cookie)

/-- The mutable `penalty` accumulation of `checkCookies`: each cookie with at
least one issue adds `issues.length * 5`. -/
def cookiePenalty (parsedCookies : List Cookie) : Int :=
  parsedCookies.foldl
    (fun acc cookie =>
      let issues := analyzeCookieIssues cookie
      if issues.length > 0 then acc + issues.length * 5 else acc) 0

/-- `checkCookies`. The network / parsing boundary is modelled as:
`none` — no response was obtainable at all (shared context empty and the
fallback fetch failed); `some cs` — a response was obtained and its
`Set-Cookie` header parsed to the cookie list `cs` (`[]` when the header is
absent or empty). `errMsg` is `capturedError?.message`. -/
def checkCookies (response : Option (List Cookie)) (errMsg : Option String) :
    CategoryResult :=
  match response with
  | none =>
    finalizeResult "cookies" "Cookie Security" 0
      (["Unable to retrieve response cookies."] ++ truthyToList errMsg) {}
  | some parsedCookies =>
    if parsedCookies.isEmpty then
      finalizeResult "cookies" "Cookie Security" MAX_SCORE []
        { totalCookies := some 0,
          note := some "No cookies were set during the initial request." }
    else
      let penalty := cookiePenalty parsedCookies
      let insecureCookies :=
        parsedCookies.filter fun cookie => (analyzeCookieIssues cookie).length > 0
      let warnings := insecureCookies.map cookieWarning
      let score := max 0 (MAX_SCORE - min MAX_SCORE penalty)
      finalizeResult "cookies" "Cookie Security" score warnings
        { totalCookies := some parsedCookies.length,
          insecureCookies := some insecureCookies.length }

/-! ## Header evaluator (`headers.js`) -/

/-- The response headers after `extractHeaders` (keys lower-cased), restricted
to the six fields the rubric reads. A value is the raw header string
(the array/number coercion of `normalizeValue` is upstream of this boundary:
values are modelled once coerced to strings, un-trimmed). `none` means the
header is absent. -/
structure Headers where
  strictTransportSecurity : Option String := none
  contentSecurityPolicy : Option String := none
  xFrameOptions : Option String := none
  referrerPolicy : Option String := none
  permissionsPolicy : Option String := none
  xContentTypeOptions : Option String := none
  deriving Repr, DecidableEq

/-- `normalizeValue` on a possibly-absent string value: trims it. -/
def normalizeValue : Option String → Option String
  | none => none
  | some v => some (jsTrim v)

/-- One entry of the rubric list built by `createHeaderChecks` (the `valid`
closure is evaluated eagerly — it is pure). -/
structure HeaderCheck where
  key : String
  label : String
  weight : Int
  present : Bool
  valid : Bool
  warning : String
  deriving Repr, DecidableEq

/-- `/max-age=\d+/i.test(s)`: some position of `s` (lower-cased) starts with
`max-age=` followed by a digit. -/
def maxAgeTest (s : String) : Bool :=
  (lcChars s).tails.any fun t =>
    "max-age=".data.isPrefixOf t && (t.drop 8).head?.any Char.isDigit

/-- `/frame-ancestors\s+/i.test(s)`: some position of `s` (lower-cased)
starts with `frame-ancestors` followed by a whitespace character. -/
def frameAncestorsTest (s : String) : Bool :=
  (lcChars s).tails.any fun t =>
    "frame-ancestors".data.isPrefixOf t && (t.drop 15).head?.any Char.isWhitespace

/-- `createHeaderChecks`: the six rubric checks, in source order, with their
fixed weights and warning strings. -/
def createHeaderChecks (headers : Headers) : List HeaderCheck :=
  let cspValue := normalizeValue headers.contentSecurityPolicy
  let hasFrameAncestors :=
    jsTruthy cspValue && frameAncestorsTest (cspValue.getD "")
  [ { key := "strict-transport-security",
      label := "HSTS (Strict-Transport-Security)", weight := 5,
      present := jsTruthy headers.strictTransportSecurity,
      valid :=
        (match normalizeValue headers.strictTransportSecurity with
         | some v => v != "" && maxAgeTest v
         | none => false),
      warning := "Missing Strict-Transport-Security header (HSTS)." },
    { key := "content-security-policy",
      label := "Content-Security-Policy", weight := 5,
      present := jsTruthy headers.contentSecurityPolicy,
      valid := jsTruthy cspValue,
      warning := "Missing Content-Security-Policy header." },
    { key := "x-frame-options",
      label := "Clickjacking protection", weight := 4,
      present := jsTruthy headers.xFrameOptions || hasFrameAncestors,
      valid :=
        (match normalizeValue headers.xFrameOptions with
         | some v =>
           if v != "" then containsCI v "sameorigin" || containsCI v "deny"
           else hasFrameAncestors
         | none => hasFrameAncestors),
      warning := "Missing X-Frame-Options header or frame-ancestors directive." },
    { key := "referrer-policy",
      label := "Referrer-Policy", weight := 4,
      present := jsTruthy headers.referrerPolicy,
      valid :=
        (match normalizeValue headers.referrerPolicy with
         | some v =>
           v != "" &&
             (containsCI v "no-referrer" || containsCI v "strict-origin" ||
               containsCI v "strict-origin-when-cross-origin")
         | none => false),
      warning := "Missing Referrer-Policy header." },
    { key := "permissions-policy",
      label := "Permissions-Policy", weight := 3,
      present := jsTruthy headers.permissionsPolicy,
      valid := jsTruthy (normalizeValue headers.permissionsPolicy),
      warning := "Missing Permissions-Policy header." },
    { key := "x-content-type-options",
      label := "X-Content-Type-Options", weight := 4,
      present := jsTruthy headers.xContentTypeOptions,
      valid :=
        (match normalizeValue headers.xContentTypeOptions with
         | some v => v != "" && (⟨lcChars v⟩ : String) = "nosniff"
         | none => false),
      warning := "Missing X-Content-Type-Options header (nosniff)." } ]

/-- A rubric check fails when the header is absent or its value is invalid
(`!check.present || !check.valid()` in the source). -/
def checkFails (check : HeaderCheck) : Bool := !check.present || !check.valid

/-- The `checks.forEach` loop of `checkHeaders`: starting from
`(MAX_SCORE, [])`, each failing check subtracts its weight and appends its
warning. -/
def headerFold (checks : List HeaderCheck) : Int × List String :=
  checks.foldl
    (fun acc check =>
      if checkFails check then (acc.1 - check.weight, acc.2 ++ [check.warning])
      else acc)
    (MAX_SCORE, [])

/-- `checkHeaders`. The network boundary is modelled as: `none` — no response
was obtainable (shared context empty and the fallback fetch failed);
`some h` — a response with headers `h` was obtained. `errMsg` is
`capturedError?.message`. -/
def checkHeaders (response : Option Headers) (errMsg : Option String) :
    CategoryResult :=
  match response with
  | none =>
    finalizeResult "headers" "Security Headers" 0
      (["Unable to retrieve the site response headers."] ++ truthyToList errMsg) {}
  | some headers =>
    let checks := createHeaderChecks headers
    let folded := headerFold checks
    finalizeResult "headers" "Security Headers" folded.1 folded.2
      { missing := some ((checks.filter checkFails).map (·.label)) }

/-! ## TLS evaluator (`tls.js`) -/

/-- The parts of `new URL(targetUrl)` that `checkTLS` reads. -/
structure ParsedURL where
  protocol : String
  hostname : String
  port : Option Nat := none
  deriving Repr, DecidableEq

/-- The certificate expiration information derivable from `cert.valid_to`:
the field can be missing, present but unparsable as a date, or parsed —
in which case the evaluator computes
`daysUntilExpiry = Math.floor((validTo - Date.now()) / dayInMs)`. -/
inductive ExpiryInfo
  | missing
  | unparsable
  | days (d : Int)
  deriving Repr, DecidableEq

/-- What the TLS success callback can observe from the socket: the negotiated
protocol name (if any), whether `getPeerCertificate` returned an
empty/unreadable certificate, the formatted issuer name (`none` when
`formatName` yields `null`), the expiration information, and the certificate
SAN entries (`[]` when `subjectaltname` is absent or yields no entries). -/
structure TLSConnData where
  protocol : Option String := none
  certEmpty : Bool := false
  issuer : Option String := none
  expiry : ExpiryInfo := .missing
  sanEntries : List String := []
  deriving Repr, DecidableEq

/-- The outcome of the TLS handshake: the success callback ran with the given
observations; the socket errored; the socket timed out; or certificate
inspection threw mid-way (the `catch` block), with the score and warnings
accumulated up to the throw point. -/
inductive ConnOutcome
  | connected (data : TLSConnData)
  | connError (msg : String)
  | timedOut
  | inspectFailed (preScore : Int) (preWarnings : List String) (msg : String)
  deriving Repr, DecidableEq

/-- Whether the upper-cased protocol name starts with `TLS`. -/
def startsWithTLS (protocol : String) : Bool :=
  "TLS".data.isPrefixOf (protocol.data.map Char.toUpper)

/-- The sequential score/warning accumulation of the TLS success callback,
mirroring the mutable `score` and `warnings` of the source. -/
def tlsConnEval (hostname : String) (data : TLSConnData) : Int × List String :=
  let acc : Int × List String := (MAX_SCORE, [])
  let acc :=
    match data.protocol with
    | some p =>
      if !(startsWithTLS p) then
        (acc.1 - 10, acc.2 ++ ["Insecure protocol negotiated: " ++ p])
      else acc
    | none => acc
  if data.certEmpty then
    (min acc.1 5, acc.2 ++ ["Unable to read TLS certificate details."])
  else
    let acc :=
      match data.issuer with
      | some _ => acc
      | none => (acc.1 - 3, acc.2 ++ ["Certificate issuer information is incomplete."])
    let acc :=
      match data.expiry with
      | .days d =>
        if d < 0 then ((0 : Int), acc.2 ++ ["Certificate is expired."])
        else if d ≤ 7 then (acc.1 - 12, acc.2 ++ ["Certificate expires within 7 days."])
        else if d ≤ 30 then (acc.1 - 8, acc.2 ++ ["Certificate expires within 30 days."])
        else if d ≤ 90 then (acc.1 - 3, acc.2 ++ ["Certificate expires within 90 days."])
        else acc
      | .unparsable => (acc.1 - 4, acc.2 ++ ["Unable to parse certificate expiration date."])
      | .missing => (acc.1 - 6, acc.2 ++ ["Certificate expiration date is missing."])
    let acc :=
      if !data.sanEntries.isEmpty && !(data.sanEntries.contains hostname) then
        (acc.1 - 5,
          acc.2 ++ ["Hostname is not explicitly listed in the certificate SAN entries."])
      else acc
    acc

/-- The `daysUntilExpiry` detail field set by the success callback. -/
def tlsExpiryDetail : ExpiryInfo → Option Int
  | .days d => some d
  | .unparsable => none
  | .missing => none

/-- `checkTLS`. `url` is the outcome of `new URL(targetUrl)` (`none` on a
parse failure); `conn` is the outcome of the TLS handshake, which the
non-HTTPS and invalid-URL branches never consult. -/
def checkTLS (url : Option ParsedURL) (conn : ConnOutcome) : CategoryResult :=
  match url with
  | none =>
    finalizeResult "tls" "HTTPS & TLS" 0
      ["The URL is not valid, so the TLS certificate could not be checked."] {}
  | some u =>
    if u.protocol ≠ "https:" then
      finalizeResult "tls" "HTTPS & TLS" 0
        ["Site does not use HTTPS; TLS certificate was not evaluated."]
        { protocol := some (removeFirstColon u.protocol) }
    else
      match conn with
      | .connected data =>
        let acc := tlsConnEval u.hostname data
        finalizeResult "tls" "HTTPS & TLS" acc.1 acc.2
          { protocol := data.protocol, daysUntilExpiry := tlsExpiryDetail data.expiry,
            hostname := some u.hostname }
      | .connError msg =>
        finalizeResult "tls" "HTTPS & TLS" 0
          (["Could not establish a TLS connection."] ++ truthyToList (some msg))
          { error := some msg }
      | .timedOut =>
        finalizeResult "tls" "HTTPS & TLS" 0 ["TLS handshake timed out."] {}
      | .inspectFailed preScore preWarnings msg =>
        finalizeResult "tls" "HTTPS & TLS" (min preScore 10)
          (preWarnings ++ ["TLS inspection failed."]) { error := some msg }

/-! ## WHOIS evaluator (`whois.js`) -/

/-- A date-valued WHOIS field as the evaluator sees it: absent from the
record (no alias matched), present but unparsable (`new Date` gives `NaN`),
or parsed — carrying the derived whole-day count
(`Math.floor((now - creation) / dayInMs)` for the creation date,
`Math.floor((expiry - now) / dayInMs)` for the expiry date). -/
inductive DateField
  | absent
  | unparsable
  | parsed (days : Int)
  deriving Repr, DecidableEq

/-- `parseDate(pickValue(record, aliases)) || undefined`: an absent field and
an unparsable date string collapse to the same `undefined`. -/
def resolveDays : DateField → Option Int
  | .absent => none
  | .unparsable => none
  | .parsed d => some d

/-- The distinguishable situations `checkWhois` can reach: URL parse failure,
no registrable domain, WHOIS lookup failure, empty record, or a non-empty
record with the four extracted logical fields. -/
inductive WhoisInput
  | invalidUrl
  | noDomain (hostname : String)
  | lookupFailed (hostname : String) (errMsg : Option String)
  | emptyRecord (hostname : String)
  | record (domain : String) (creation : DateField) (expiry : DateField)
      (registrarField : Option String) (nameServers : List String)
  deriving Repr, DecidableEq

/-- `checkWhois`. -/
def checkWhois : WhoisInput → CategoryResult
  | .invalidUrl =>
    finalizeResult "whois" "Domain WHOIS" 0
      ["The URL is not valid, so WHOIS information could not be checked."] {}
  | .noDomain hostname =>
    finalizeResult "whois" "Domain WHOIS" 0
      ["Unable to determine a registrable domain for WHOIS lookup."]
      { hostname := some hostname }
  | .lookupFailed hostname errMsg =>
    finalizeResult "whois" "Domain WHOIS" 0
      (["WHOIS lookup failed."] ++ truthyToList errMsg)
      { hostname := some hostname }
  | .emptyRecord hostname =>
    finalizeResult "whois" "Domain WHOIS" 0
      ["WHOIS lookup did not return any data."] { hostname := some hostname }
  | .record domain creation expiry registrarField nameServers =>
    let registrar :=
      match registrarField with
      | some v => if v = "" then none else some v
      | none => none
    let acc : Int × List String := (MAX_SCORE, [])
    let acc :=
      match resolveDays creation with
      | some domainAgeDays =>
        if domainAgeDays < 30 then
          (acc.1 - 12, acc.2 ++ ["Domain was registered within the last 30 days."])
        else if domainAgeDays < 180 then
          (acc.1 - 6, acc.2 ++ ["Domain is relatively new (less than six months old)."])
        else acc
      | none => (acc.1 - 6, acc.2 ++ ["Unable to determine domain creation date."])
    let acc :=
      match resolveDays expiry with
      | some daysUntilExpiry =>
        if daysUntilExpiry ≤ 0 then
          (acc.1 - 10, acc.2 ++ ["Domain appears to be expired."])
        else if daysUntilExpiry ≤ 30 then
          (acc.1 - 6, acc.2 ++ ["Domain expires within the next 30 days."])
        else acc
      | none => (acc.1 - 5, acc.2 ++ ["Unable to determine domain expiry date."])
    let acc :=
      if !(jsTruthy registrar) then
        (acc.1 - 3, acc.2 ++ ["Registrar information is missing."])
      else acc
    finalizeResult "whois" "Domain WHOIS" acc.1 acc.2
      { domain := some domain, registrar := registrar,
        nameServers := some nameServers,
        domainAgeDays := resolveDays creation,
        daysUntilExpiry := resolveDays expiry }

/-! ## Aggregation (`server.js`): `Promise.allSettled` fan-out,
fallback substitution, and `summarizeOverall` -/

/-- The static description of one entry of the `tasks` array: key, label and
the `MAX_SCORE` of the module. -/
structure TaskSpec where
  key : String
  label : String
  maxScore : Int
  deriving Repr, DecidableEq

def tlsTask : TaskSpec := ⟨"tls", "HTTPS & TLS", MAX_SCORE⟩
def headersTask : TaskSpec := ⟨"headers", "Security Headers", MAX_SCORE⟩
def cookiesTask : TaskSpec := ⟨"cookies", "Cookie Security", MAX_SCORE⟩
def whoisTask : TaskSpec := ⟨"whois", "Domain WHOIS", MAX_SCORE⟩

/-- The synthetic `CategoryResult` substituted for a rejected evaluator
promise. `reasonMessage` models `result.reason?.message`; the
`filter(Boolean)` drops it from the warnings when it is absent or empty.
(The `fallback.key || ...` and `maxScore ?? 25` defaults in the source never
fire, because every task literal carries a non-empty key and `maxScore` 25.) -/
def fallbackResult (task : TaskSpec) (reasonMessage : Option String) : CategoryResult :=
  { key := task.key, label := task.label, score := 0, maxScore := task.maxScore,
    passed := false,
    warnings := ["Check failed to complete."] ++ truthyToList reasonMessage,
    details := { error := reasonMessage } }

/-- How one task settled under `Promise.allSettled`: fulfilled with the
result of the evaluator, or rejected with an optional fault message. -/
inductive TaskOutcome
  | fulfilled
  | rejected (reasonMessage : Option String)
  deriving Repr, DecidableEq

/-- The `results.map` over the settled outcomes: a fulfilled task keeps its
value of its evaluator, a rejected one is replaced by the fallback. -/
def settleTask (outcome : TaskOutcome) (task : TaskSpec) (value : CategoryResult) :
    CategoryResult :=
  match outcome with
  | .fulfilled => value
  | .rejected reasonMessage => fallbackResult task reasonMessage

/-- The `categories` array assembled by the `/api/check` handler: the four
evaluators in the fixed `tasks` order (tls, headers, cookies, whois), each
substituted by its fallback when its promise rejected. `Promise.allSettled`
preserves task order, so the array position is the task index regardless of
completion order. -/
def runCategories (tlsUrl : Option ParsedURL) (tlsConn : ConnOutcome)
    (headersResp : Option Headers) (headersErr : Option String)
    (cookiesResp : Option (List Cookie)) (cookiesErr : Option String)
    (whoisIn : WhoisInput)
    (o1 o2 o3 o4 : TaskOutcome) : List CategoryResult :=
  [ settleTask o1 tlsTask (checkTLS tlsUrl tlsConn),
    settleTask o2 headersTask (checkHeaders headersResp headersErr),
    settleTask o3 cookiesTask (checkCookies cookiesResp cookiesErr),
    settleTask o4 whoisTask (checkWhois whoisIn) ]

/-- The overall score object (`total`, `max`, `rating`). -/
structure OverallScore where
  total : Int
  max : Int
  rating : String
  deriving Repr, DecidableEq

/-- `categories.reduce((sum, c) => sum + (c.score || 0), 0)`. -/
def sumScore (categories : List CategoryResult) : Int :=
  categories.foldl (fun sum category => sum + category.score) 0

/-- `categories.reduce((sum, c) => sum + (c.maxScore || 0), 0)`. -/
def sumMaxScore (categories : List CategoryResult) : Int :=
  categories.foldl (fun sum category => sum + category.maxScore) 0

/-- `Math.round((totalScore / totalMaxScore) * 100)` for a positive
denominator: `Math.round x = ⌊x + 1/2⌋` (ties toward +∞), and
`⌊100·s/m + 1/2⌋ = (200·s + m) / (2·m)` with floor division. -/
def jsRound100 (totalScore totalMaxScore : Int) : Int :=
  (200 * totalScore + totalMaxScore) / (2 * totalMaxScore)

/-- `summarizeOverall`. -/
def summarizeOverall (categories : List CategoryResult) : OverallScore :=
  let totalScore := sumScore categories
  let totalMaxScore := sumMaxScore categories
  let normalizedScore :=
    if totalMaxScore > 0 then jsRound100 totalScore totalMaxScore else 0
  let rating :=
    if normalizedScore < 50 then "Dangerous"
    else if normalizedScore < 60 then "Warning"
    else "Safe"
  { total := normalizedScore, max := 100, rating := rating }

/-! ## Helper lemmas -/

/-- The invariant every well-formed `CategoryResult` satisfies: integer score
within `[0, maxScore]`, the fixed `maxScore` 25, and `passed` true exactly
when the score reaches the fixed threshold 18. -/
def ResultInvariant (r : CategoryResult) : Prop :=
  0 ≤ r.score ∧ r.score ≤ r.maxScore ∧ r.maxScore = 25 ∧
    (r.passed = true ↔ 18 ≤ r.score)

theorem finalizeResult_invariant (key label : String) (score : Int)
    (warnings : List String) (details : Details) :
    ResultInvariant (finalizeResult key label score warnings details) := by
  refine ⟨?_, ?_, rfl, ?_⟩ <;>
    simp [finalizeResult, ResultInvariant, MAX_SCORE, PASSING_THRESHOLD]

theorem checkTLS_invariant (url : Option ParsedURL) (conn : ConnOutcome) :
    ResultInvariant (checkTLS url conn) := by
  unfold checkTLS
  cases url with
  | none => exact finalizeResult_invariant ..
  | some u =>
    dsimp only []
    split
    · exact finalizeResult_invariant ..
    · cases conn <;> exact finalizeResult_invariant ..

theorem checkHeaders_invariant (response : Option Headers) (errMsg : Option String) :
    ResultInvariant (checkHeaders response errMsg) := by
  unfold checkHeaders
  cases response <;> exact finalizeResult_invariant ..

theorem checkCookies_invariant (response : Option (List Cookie)) (errMsg : Option String) :
    ResultInvariant (checkCookies response errMsg) := by
  unfold checkCookies
  cases response with
  | none => exact finalizeResult_invariant ..
  | some cs =>
    dsimp only []
    split
    · exact finalizeResult_invariant ..
    · exact finalizeResult_invariant ..

theorem checkWhois_invariant (input : WhoisInput) :
    ResultInvariant (checkWhois input) := by
  unfold checkWhois
  cases input <;> exact finalizeResult_invariant ..

theorem checkTLS_key (url : Option ParsedURL) (conn : ConnOutcome) :
    (checkTLS url conn).key = "tls" := by
  unfold checkTLS
  cases url with
  | none => rfl
  | some u =>
    dsimp only []
    split
    · rfl
    · cases conn <;> rfl

theorem checkHeaders_key (response : Option Headers) (errMsg : Option String) :
    (checkHeaders response errMsg).key = "headers" := by
  unfold checkHeaders
  cases response <;> rfl

theorem checkCookies_key (response : Option (List Cookie)) (errMsg : Option String) :
    (checkCookies response errMsg).key = "cookies" := by
  unfold checkCookies
  cases response with
  | none => rfl
  | some cs =>
    dsimp only []
    split <;> rfl

theorem checkWhois_key (input : WhoisInput) : (checkWhois input).key = "whois" := by
  unfold checkWhois
  cases input <;> rfl

theorem cookieFold_aux (cs : List Cookie) (a : Int) :
    cs.foldl (fun (acc : Int) cookie =>
        let issues := analyzeCookieIssues cookie
        if issues.length > 0 then acc + issues.length * 5 else acc) a
      = a + 5 * (cs.map fun c => ((analyzeCookieIssues c).length : Int)).sum := by
  induction cs generalizing a with
  | nil => simp
  | cons c cs ih =>
    simp only [List.foldl_cons, List.map_cons, List.sum_cons, ih]
    by_cases h : 0 < (analyzeCookieIssues c).length
    · simp only [h, if_pos]
      ring
    · simp only [Nat.pos_iff_ne_zero] at h
      simp only [gt_iff_lt, Nat.pos_iff_ne_zero, h, ite_false, not_false_eq_true]
      have h0 : (analyzeCookieIssues c).length = 0 := by omega
      simp [h0]

/-- The accumulated penalty is five points per issue, totalled across all
cookies. -/
theorem cookiePenalty_eq (cs : List Cookie) :
    cookiePenalty cs = 5 * (cs.map fun c => ((analyzeCookieIssues c).length : Int)).sum := by
  simpa [cookiePenalty] using cookieFold_aux cs 0

theorem totalIssues_nonneg (cs : List Cookie) :
    0 ≤ (cs.map fun c => ((analyzeCookieIssues c).length : Int)).sum := by
  apply List.sum_nonneg
  intro x hx
  obtain ⟨c, _, rfl⟩ := List.mem_map.mp hx
  exact Int.natCast_nonneg _

/-- A single cookie whose issues alone drive the cookie score to 0: a
`__Host-` cookie with no Secure, no HttpOnly, no SameSite, no `Path=/` and
an explicit Domain — six issues, 30 penalty points. -/
def hostPrefixViolatingCookie : Cookie :=
  { name := "__Host-session", domain := some "attacker.example" }

/-- C4: for an obtained response, the cookie evaluator returns score 25 with
empty warnings and `details.totalCookies = 0` when no Set-Cookie entries
exist; otherwise the score is `max 0 (25 − 5·N)` where `N` is the total
number of issues across all parsed cookies, one warning line is emitted per
cookie with at least one issue, and a single sufficiently bad cookie alone
drives the score to 0. -/
theorem C4_cookie_scoring (cs : List Cookie) (errMsg : Option String) :
    ((checkCookies (some []) errMsg).score = 25
      ∧ (checkCookies (some []) errMsg).warnings = []
      ∧ (checkCookies (some []) errMsg).details.totalCookies = some 0)
  ∧ (checkCookies (some cs) errMsg).score
      = max 0 (25 - 5 * (cs.map fun c => ((analyzeCookieIssues c).length : Int)).sum)
  ∧ (checkCookies (some cs) errMsg).warnings.length
      = (cs.filter fun c => (analyzeCookieIssues c).length > 0).length
  ∧ (checkCookies (some [hostPrefixViolatingCookie]) none).score = 0 := by
  refine ⟨⟨rfl, rfl, rfl⟩, ?_, ?_, by decide⟩
  · cases cs with
    | nil => simp [checkCookies, finalizeResult, MAX_SCORE]
    | cons c cs =>
      have hN := totalIssues_nonneg (c :: cs)
      simp only [checkCookies, List.isEmpty_cons, Bool.false_eq_true, if_false,
        cookiePenalty_eq, finalizeResult, MAX_SCORE]
      omega
  · cases cs with
    | nil => simp [checkCookies, finalizeResult]
    | cons c cs =>
      simp [checkCookies, finalizeResult]

theorem headerFold_aux (cs : List HeaderCheck) (a : Int × List String) :
    cs.foldl (fun acc check =>
        if checkFails check then (acc.1 - check.weight, acc.2 ++ [check.warning])
        else acc) a
      = (a.1 - ((cs.filter checkFails).map (·.weight)).sum,
         a.2 ++ (cs.filter checkFails).map (·.warning)) := by
  induction cs generalizing a with
  | nil => simp
  | cons c cs ih =>
    by_cases hc : checkFails c = true
    · simp only [List.foldl_cons, hc, if_true, List.filter_cons_of_pos, List.map_cons,
        List.sum_cons, ih]
      refine Prod.ext ?_ ?_
      · simp
        ring
      · simp
    · simp only [Bool.not_eq_true] at hc
      simp [hc, ih]

/-- The `forEach` accumulation equals: score 25 minus the weights of the
failing checks, warnings in rubric order. -/
theorem headerFold_spec (cs : List HeaderCheck) :
    headerFold cs
      = (MAX_SCORE - ((cs.filter checkFails).map (·.weight)).sum,
         (cs.filter checkFails).map (·.warning)) := by
  simpa [headerFold] using headerFold_aux cs (MAX_SCORE, [])

theorem filterWeightSum_bounds (cs : List HeaderCheck) (hw : ∀ c ∈ cs, 0 ≤ c.weight) :
    0 ≤ ((cs.filter checkFails).map (·.weight)).sum
    ∧ ((cs.filter checkFails).map (·.weight)).sum ≤ (cs.map (·.weight)).sum := by
  induction cs with
  | nil => simp
  | cons c cs ih =>
    have h0 := hw c (List.mem_cons_self ..)
    have ih2 := ih fun x hx => hw x (List.mem_cons_of_mem _ hx)
    by_cases hc : checkFails c = true <;>
      simp only [List.filter_cons, hc, if_true, if_false, Bool.false_eq_true,
        List.map_cons, List.sum_cons] <;> omega

theorem createHeaderChecks_weights (h : Headers) :
    (createHeaderChecks h).map (·.weight) = [5, 5, 4, 4, 3, 4] := rfl

theorem createHeaderChecks_weight_nonneg (h : Headers) :
    ∀ c ∈ createHeaderChecks h, 0 ≤ c.weight := by
  intro c hc
  fin_cases hc <;> norm_num

/-- A `Headers` value with none of the six rubric headers set. -/
def noHeaders : Headers := {}

/-- A `Headers` value with all six rubric headers correctly set. -/
def allGoodHeaders : Headers :=
  { strictTransportSecurity := some "max-age=63072000; includeSubDomains",
    contentSecurityPolicy := some "default-src https:",
    xFrameOptions := some "DENY",
    referrerPolicy := some "no-referrer",
    permissionsPolicy := some "geolocation=()",
    xContentTypeOptions := some "nosniff" }

/-- C5: for every obtained response the header score is 25 minus the summed
weights of the failing checks (floored at 0), the rubric weights are fixed at
(5, 5, 4, 4, 3, 4); no headers → score 0 and all six labels missing; all six
correctly set → score 25 and empty missing list. -/
theorem C5_header_scoring (h : Headers) (errMsg : Option String) :
    (checkHeaders (some h) errMsg).score
      = max 0 (25 - (((createHeaderChecks h).filter checkFails).map (·.weight)).sum)
  ∧ (createHeaderChecks h).map (·.weight) = [5, 5, 4, 4, 3, 4]
  ∧ ((checkHeaders (some noHeaders) errMsg).score = 0
      ∧ (checkHeaders (some noHeaders) errMsg).details.missing
          = some ["HSTS (Strict-Transport-Security)", "Content-Security-Policy",
                  "Clickjacking protection", "Referrer-Policy", "Permissions-Policy",
                  "X-Content-Type-Options"])
  ∧ ((checkHeaders (some allGoodHeaders) errMsg).score = 25
      ∧ (checkHeaders (some allGoodHeaders) errMsg).details.missing = some []) := by
  refine ⟨?_, rfl, ⟨rfl, rfl⟩, rfl, rfl⟩
  have hb := filterWeightSum_bounds (createHeaderChecks h) (createHeaderChecks_weight_nonneg h)
  rw [createHeaderChecks_weights] at hb
  simp only [List.sum_cons, List.sum_nil] at hb
  simp only [checkHeaders, headerFold_spec, finalizeResult, MAX_SCORE]
  omega

/-- The value test the implementation actually applies for `Referrer-Policy`:
the regex `/(no-referrer|strict-origin|strict-origin-when-cross-origin)/i` is
a case-insensitive substring search over the trimmed header value, so any
value containing one of the three tokens — e.g.
`no-referrer-when-downgrade` — is accepted. -/
def referrerAccepted (value : String) : Bool :=
  containsCI (jsTrim value) "no-referrer" || containsCI (jsTrim value) "strict-origin"
    || containsCI (jsTrim value) "strict-origin-when-cross-origin"

/-- The fourth rubric entry (Referrer-Policy). -/
def referrerPolicyEntry (h : Headers) : HeaderCheck :=
  (createHeaderChecks h).get ⟨3, by simp [createHeaderChecks]⟩

theorem referrerPolicyEntry_eq (h : Headers) :
    referrerPolicyEntry h
      = { key := "referrer-policy", label := "Referrer-Policy", weight := 4,
          present := jsTruthy h.referrerPolicy,
          valid :=
            (match normalizeValue h.referrerPolicy with
             | some v =>
               v != "" &&
                 (containsCI v "no-referrer" || containsCI v "strict-origin" ||
                   containsCI v "strict-origin-when-cross-origin")
             | none => false),
          warning := "Missing Referrer-Policy header." } := rfl

theorem referrerEntry_fails (h : Headers) :
    checkFails (referrerPolicyEntry h) = !(h.referrerPolicy.any referrerAccepted) := by
  rw [referrerPolicyEntry_eq]
  cases hr : h.referrerPolicy with
  | none => simp [checkFails, jsTruthy, normalizeValue, Option.any]
  | some v =>
    by_cases ht : jsTrim v = ""
    · simp [checkFails, normalizeValue, referrerAccepted, jsTruthy, Option.any, ht]
      decide
    · have htrim : jsTrim "" = "" := by decide
      have hv : v ≠ "" := fun hveq => ht (by rw [hveq, htrim])
      have hb1 : (v != "") = true := by simp [hv]
      have hb2 : (jsTrim v != "") = true := by simp [ht]
      simp [checkFails, normalizeValue, referrerAccepted, Option.any, jsTruthy, hb1, hb2]

theorem createHeaderChecks_split (h : Headers) :
    createHeaderChecks h
      = (createHeaderChecks h).take 3
          ++ referrerPolicyEntry h :: (createHeaderChecks h).drop 4 := rfl

theorem createHeaderChecks_erase (h : Headers) :
    (createHeaderChecks h).eraseIdx 3
      = (createHeaderChecks h).take 3 ++ (createHeaderChecks h).drop 4 := rfl

theorem referrer_strings_not_elsewhere (h : Headers) :
    "Missing Referrer-Policy header." ∉
        ((((createHeaderChecks h).take 3 ++ (createHeaderChecks h).drop 4).filter
            checkFails).map (·.warning))
  ∧ "Referrer-Policy" ∉
        ((((createHeaderChecks h).take 3 ++ (createHeaderChecks h).drop 4).filter
            checkFails).map (·.label)) := by
  constructor <;>
  · intro hm
    obtain ⟨c, hc, hw⟩ := List.mem_map.mp hm
    have hc2 := List.mem_of_mem_filter hc
    simp only [createHeaderChecks, List.take, List.drop, List.cons_append,
      List.nil_append, List.mem_cons, List.not_mem_nil, or_false] at hc2
    rcases hc2 with rfl | rfl | rfl | rfl | rfl <;> simp at hw

/-- Headers whose `Referrer-Policy` value is `no-referrer-when-downgrade` —
a real policy value that is not one of the three listed tokens. -/
def downgradeHeaders : Headers := { referrerPolicy := some "no-referrer-when-downgrade" }

/-- C8 counterexample: `no-referrer-when-downgrade` is none of `no-referrer`,
`strict-origin`, `strict-origin-when-cross-origin`, yet the check passes: no
warning is appended, the label is not reported missing, and the score is
`25 − 21 = 4` (the five other checks fail, the Referrer-Policy weight 4 is
NOT subtracted — the claim predicts score 0 here). -/
theorem C8_counterexample :
    (("no-referrer-when-downgrade" : String) ≠ "no-referrer"
      ∧ ("no-referrer-when-downgrade" : String) ≠ "strict-origin"
      ∧ ("no-referrer-when-downgrade" : String) ≠ "strict-origin-when-cross-origin")
  ∧ "Missing Referrer-Policy header." ∉ (checkHeaders (some downgradeHeaders) none).warnings
  ∧ "Referrer-Policy" ∉ ((checkHeaders (some downgradeHeaders) none).details.missing.getD [])
  ∧ (checkHeaders (some downgradeHeaders) none).score = 4 := by
  refine ⟨⟨?_, ?_, ?_⟩, ?_, ?_, rfl⟩ <;> decide

/-- C8 (amended): the Referrer-Policy check passes — no warning, not listed
missing, and its fixed 4-point weight not counted into the penalty sum — if
and only if the header is present and its trimmed value case-insensitively
CONTAINS one of `no-referrer`, `strict-origin`,
`strict-origin-when-cross-origin` as a substring (the validity test is a
regex substring search, so values like `no-referrer-when-downgrade` also
pass); otherwise the 4-point penalty is applied and the fixed warning is
appended. -/
theorem C8_referrer_policy (h : Headers) (errMsg : Option String) :
    ("Missing Referrer-Policy header." ∉ (checkHeaders (some h) errMsg).warnings
      ↔ h.referrerPolicy.any referrerAccepted = true)
  ∧ ("Referrer-Policy" ∉ ((checkHeaders (some h) errMsg).details.missing.getD [])
      ↔ h.referrerPolicy.any referrerAccepted = true)
  ∧ (((createHeaderChecks h).filter checkFails).map (·.weight)).sum
      = ((((createHeaderChecks h).eraseIdx 3).filter checkFails).map (·.weight)).sum
        + (if h.referrerPolicy.any referrerAccepted = true then 0 else 4) := by
  obtain ⟨hnw, hnl⟩ := referrer_strings_not_elsewhere h
  have hwarn : (checkHeaders (some h) errMsg).warnings
      = ((createHeaderChecks h).filter checkFails).map (·.warning) := by
    simp [checkHeaders, headerFold_spec, finalizeResult]
  have hmiss : (checkHeaders (some h) errMsg).details.missing
      = some (((createHeaderChecks h).filter checkFails).map (·.label)) := by
    simp [checkHeaders, headerFold_spec, finalizeResult]
  rw [hwarn, hmiss, createHeaderChecks_erase]
  rw [show (createHeaderChecks h).filter checkFails
      = ((createHeaderChecks h).take 3
          ++ referrerPolicyEntry h :: (createHeaderChecks h).drop 4).filter checkFails from by
    rw [← createHeaderChecks_split]]
  by_cases hacc : h.referrerPolicy.any referrerAccepted = true
  · have hfail : checkFails (referrerPolicyEntry h) = false := by
      rw [referrerEntry_fails, hacc]; rfl
    simp only [List.filter_append, List.filter_cons, hfail, Bool.false_eq_true, if_false,
      List.map_append, List.sum_append, hacc, if_true, Option.getD_some]
    refine ⟨?_, ?_, by simp [hacc]⟩ <;> simp_all [List.filter_append]
  · have hfail : checkFails (referrerPolicyEntry h) = true := by
      rw [referrerEntry_fails]
      simp only [Bool.not_eq_true] at hacc
      rw [hacc]; rfl
    have hrw : (referrerPolicyEntry h).warning = "Missing Referrer-Policy header." := rfl
    have hrl : (referrerPolicyEntry h).label = "Referrer-Policy" := rfl
    have hrweight : (referrerPolicyEntry h).weight = 4 := rfl
    simp only [List.filter_append, List.filter_cons, hfail, if_true, List.map_append,
      List.map_cons, List.sum_append, List.sum_cons, hacc, if_false, Option.getD_some,
      hrw, hrl, hrweight]
    refine ⟨?_, ?_, ?_⟩
    · exact iff_of_false (fun hnot => hnot (by simp)) (by simp)
    · exact iff_of_false (fun hnot => hnot (by simp)) (by simp)
    · simp only [Bool.false_eq_true, if_false]
      omega

/-- The non-expiry penalties of the TLS success callback: non-TLS negotiated
protocol (10), missing issuer name (3), hostname absent from a non-empty SAN
list (5). -/
def tlsBasePenalties (hostname : String) (data : TLSConnData) : Int :=
  (match data.protocol with
   | some p => if !(startsWithTLS p) then 10 else 0
   | none => 0)
  + (match data.issuer with
     | some _ => 0
     | none => 3)
  + (if !data.sanEntries.isEmpty && !(data.sanEntries.contains hostname) then 5 else 0)

/-- The mutually exclusive expiry bracket penalty: within 7 days 12, within
30 days 8, within 90 days 3, beyond 90 days none. -/
def expiryBracketPenalty (d : Int) : Int :=
  if d ≤ 7 then 12 else if d ≤ 30 then 8 else if d ≤ 90 then 3 else 0

theorem insecureProtocolWarning_ne (p t : String) (hne : t.data.head? ≠ some 'I') :
    ("Insecure protocol negotiated: " ++ p) ≠ t := by
  intro he
  apply hne
  rw [← he]
  rfl

/-- Protocol penalty of the success callback: 10 when the negotiated protocol
does not start with `TLS`. -/
def protoPen : Option String → Int
  | some p => if !(startsWithTLS p) then 10 else 0
  | none => 0

/-- Protocol warning of the success callback. -/
def protoWarns : Option String → List String
  | some p => if !(startsWithTLS p) then ["Insecure protocol negotiated: " ++ p] else []
  | none => []

/-- Issuer penalty: 3 when `formatName(cert.issuer)` is falsy. -/
def issuerPen : Option String → Int
  | some _ => 0
  | none => 3

/-- Issuer warning. -/
def issuerWarns : Option String → List String
  | some _ => []
  | none => ["Certificate issuer information is incomplete."]

/-- SAN penalty: 5 when SAN entries exist but the hostname is not among
them. -/
def sanPen (hostname : String) (san : List String) : Int :=
  if !san.isEmpty && !(san.contains hostname) then 5 else 0

/-- SAN warning. -/
def sanWarns (hostname : String) (san : List String) : List String :=
  if !san.isEmpty && !(san.contains hostname) then
    ["Hostname is not explicitly listed in the certificate SAN entries."] else []

/-- The expiry step applied to the running score: an expired certificate
overwrites the score with 0; otherwise the closest matching bracket penalty
(or the unparsable/missing penalty) is subtracted. -/
def expiryAdjust (s : Int) : ExpiryInfo → Int
  | .days d =>
    if d < 0 then 0
    else if d ≤ 7 then s - 12
    else if d ≤ 30 then s - 8
    else if d ≤ 90 then s - 3
    else s
  | .unparsable => s - 4
  | .missing => s - 6

/-- The expiry warning emitted by the success callback. -/
def expiryWarns : ExpiryInfo → List String
  | .days d =>
    if d < 0 then ["Certificate is expired."]
    else if d ≤ 7 then ["Certificate expires within 7 days."]
    else if d ≤ 30 then ["Certificate expires within 30 days."]
    else if d ≤ 90 then ["Certificate expires within 90 days."]
    else []
  | .unparsable => ["Unable to parse certificate expiration date."]
  | .missing => ["Certificate expiration date is missing."]

set_option maxHeartbeats 1600000 in
/-- Decomposition of the sequential success-callback accumulation into
independent contributions, for a readable certificate. -/
theorem tlsConnEval_decomp (host : String) (proto issuer : Option String)
    (e : ExpiryInfo) (san : List String) :
    tlsConnEval host ⟨proto, false, issuer, e, san⟩
      = (expiryAdjust (25 - protoPen proto - issuerPen issuer) e - sanPen host san,
         protoWarns proto ++ issuerWarns issuer ++ expiryWarns e ++ sanWarns host san) := by
  rcases proto with _ | p <;> rcases issuer with _ | i <;> rcases e with _ | _ | d <;>
    simp only [tlsConnEval, protoPen, protoWarns, issuerPen, issuerWarns, sanPen,
      sanWarns, expiryAdjust, expiryWarns, MAX_SCORE, Bool.false_eq_true, if_false] <;>
    split_ifs <;> refine Prod.ext (by omega) (by simp)

theorem protoWarns_mem (proto : Option String) (t : String) (ht : t ∈ protoWarns proto) :
    t.data.head? = some 'I' := by
  rcases proto with _ | p
  · simp [protoWarns] at ht
  · simp only [protoWarns] at ht
    split_ifs at ht
    · simp only [List.mem_singleton] at ht
      subst ht
      rfl
    · simp at ht

theorem issuerWarns_mem (issuer : Option String) (t : String) (ht : t ∈ issuerWarns issuer) :
    t = "Certificate issuer information is incomplete." := by
  rcases issuer with _ | i
  · simpa [issuerWarns] using ht
  · simp [issuerWarns] at ht

theorem sanWarns_mem (host : String) (san : List String) (t : String)
    (ht : t ∈ sanWarns host san) :
    t = "Hostname is not explicitly listed in the certificate SAN entries." := by
  by_cases hcond : (!san.isEmpty && !(san.contains host)) = true
  · rw [sanWarns, if_pos hcond] at ht
    simpa using ht
  · rw [sanWarns, if_neg hcond] at ht
    simp at ht

theorem mem_tls_warns_iff (proto issuer : Option String) (e : ExpiryInfo)
    (host : String) (san : List String) (t : String)
    (hI : t.data.head? = some 'C')
    (hiw : t ≠ "Certificate issuer information is incomplete.")
    (hsw : t ≠ "Hostname is not explicitly listed in the certificate SAN entries.") :
    (t ∈ protoWarns proto ++ issuerWarns issuer ++ expiryWarns e ++ sanWarns host san)
      ↔ t ∈ expiryWarns e := by
  simp only [List.mem_append]
  constructor
  · rintro (((hp | hi) | he) | hs)
    · have hh := protoWarns_mem _ _ hp
      rw [hI] at hh
      exact absurd hh (by decide)
    · exact absurd (issuerWarns_mem _ _ hi) hiw
    · exact he
    · exact absurd (sanWarns_mem _ _ _ hs) hsw
  · intro he
    exact Or.inl (Or.inr he)

set_option maxHeartbeats 800000 in
/-- C6: with a readable certificate, an already-expired certificate forces
the final score to 0 with the warning `Certificate is expired.`; otherwise at
most one expiry bracket penalty applies with the closest bracket winning
(≤ 7 days −12, ≤ 30 days −8, ≤ 90 days −3, beyond 90 days none), an
unparsable expiration date costs −4 and a missing one −6; the four expiry
warnings are present exactly on their own bracket, hence mutually
exclusive. -/
theorem C6_tls_certificate_expiry (u : ParsedURL) (data : TLSConnData)
    (hu : u.protocol = "https:") (hc : data.certEmpty = false) :
    (∀ d : Int, data.expiry = .days d → d < 0 →
        (checkTLS (some u) (.connected data)).score = 0
      ∧ "Certificate is expired." ∈ (checkTLS (some u) (.connected data)).warnings)
  ∧ (∀ d : Int, data.expiry = .days d → 0 ≤ d →
      (checkTLS (some u) (.connected data)).score
        = max 0 (min 25 (25 - tlsBasePenalties u.hostname data - expiryBracketPenalty d)))
  ∧ (data.expiry = .unparsable →
      (checkTLS (some u) (.connected data)).score
        = max 0 (min 25 (25 - tlsBasePenalties u.hostname data - 4)))
  ∧ (data.expiry = .missing →
      (checkTLS (some u) (.connected data)).score
        = max 0 (min 25 (25 - tlsBasePenalties u.hostname data - 6)))
  ∧ (∀ d : Int, data.expiry = .days d →
        (("Certificate is expired." ∈ (checkTLS (some u) (.connected data)).warnings
            ↔ d < 0)
       ∧ ("Certificate expires within 7 days."
            ∈ (checkTLS (some u) (.connected data)).warnings ↔ 0 ≤ d ∧ d ≤ 7)
       ∧ ("Certificate expires within 30 days."
            ∈ (checkTLS (some u) (.connected data)).warnings ↔ 7 < d ∧ d ≤ 30)
       ∧ ("Certificate expires within 90 days."
            ∈ (checkTLS (some u) (.connected data)).warnings ↔ 30 < d ∧ d ≤ 90))) := by
  obtain ⟨proto, ce, issuer, expiry, san⟩ := data
  have hce : ce = false := hc
  subst hce
  have hbase : tlsBasePenalties u.hostname ⟨proto, false, issuer, expiry, san⟩
      = protoPen proto + issuerPen issuer + sanPen u.hostname san := by
    cases proto <;> cases issuer <;> rfl
  have hsan : sanPen u.hostname san = 0 ∨ sanPen u.hostname san = 5 := by
    unfold sanPen
    split_ifs <;> simp
  have hscore : ∀ e : ExpiryInfo,
      (checkTLS (some u) (.connected ⟨proto, false, issuer, e, san⟩)).score
        = max 0 (min 25 (expiryAdjust (25 - protoPen proto - issuerPen issuer) e
            - sanPen u.hostname san)) := by
    intro e
    simp [checkTLS, hu, finalizeResult, MAX_SCORE, tlsConnEval_decomp]
  have hwarns : ∀ e : ExpiryInfo,
      (checkTLS (some u) (.connected ⟨proto, false, issuer, e, san⟩)).warnings
        = protoWarns proto ++ issuerWarns issuer ++ expiryWarns e
            ++ sanWarns u.hostname san := by
    intro e
    simp [checkTLS, hu, finalizeResult, tlsConnEval_decomp]
  refine ⟨?_, ?_, ?_, ?_, ?_⟩
  · rintro d rfl hd
    rw [hscore, hwarns]
    constructor
    · simp only [expiryAdjust, if_pos hd]
      omega
    · simp [expiryWarns, if_pos hd, List.mem_append]
  · rintro d rfl hd
    rw [hscore, hbase]
    simp only [expiryAdjust, expiryBracketPenalty, if_neg (not_lt.mpr hd)]
    split_ifs <;> omega
  · rintro rfl
    rw [hscore, hbase]
    simp only [expiryAdjust]
    omega
  · rintro rfl
    rw [hscore, hbase]
    simp only [expiryAdjust]
    omega
  · rintro d rfl
    rw [hwarns]
    rw [mem_tls_warns_iff _ _ _ _ _ _ (by rfl) (by decide) (by decide),
      mem_tls_warns_iff _ _ _ _ _ _ (by rfl) (by decide) (by decide),
      mem_tls_warns_iff _ _ _ _ _ _ (by rfl) (by decide) (by decide),
      mem_tls_warns_iff _ _ _ _ _ _ (by rfl) (by decide) (by decide)]
    refine ⟨?_, ?_, ?_, ?_⟩ <;>
      (simp only [expiryWarns]; split_ifs <;> simp <;> omega)

/-- C9: a non-HTTPS URL short-circuits the TLS evaluator to score 0 with the
no-HTTPS warning and the scheme (colon stripped) recorded in the details;
the result does not depend on the TLS connection outcome — no handshake is
consulted. -/
theorem C9_tls_non_https (u : ParsedURL) (conn conn2 : ConnOutcome)
    (h : u.protocol ≠ "https:") :
    (checkTLS (some u) conn).score = 0
  ∧ (checkTLS (some u) conn).passed = false
  ∧ (checkTLS (some u) conn).warnings
      = ["Site does not use HTTPS; TLS certificate was not evaluated."]
  ∧ (checkTLS (some u) conn).details.protocol = some (removeFirstColon u.protocol)
  ∧ checkTLS (some u) conn = checkTLS (some u) conn2 := by
  simp [checkTLS, h, finalizeResult, MAX_SCORE, PASSING_THRESHOLD]

/-- C9 witness: a plain `http://` URL with two different connection
outcomes. -/
theorem C9_tls_non_https_witness :
    (checkTLS (some ⟨"http:", "example.com", none⟩) .timedOut).score = 0
  ∧ checkTLS (some ⟨"http:", "example.com", none⟩) .timedOut
      = checkTLS (some ⟨"http:", "example.com", none⟩) (.connError "refused") := by
  have h := C9_tls_non_https ⟨"http:", "example.com", none⟩ .timedOut
    (.connError "refused") (by decide)
  exact ⟨h.1, h.2.2.2.2⟩

/-- C6 witness: a concrete HTTPS URL whose certificate expired yesterday. -/
theorem C6_tls_certificate_expiry_witness :
    (checkTLS (some ⟨"https:", "example.com", none⟩)
        (.connected ⟨some "TLSv1.3", false, some "DigiCert Inc", .days (-1), []⟩)).score = 0
  ∧ "Certificate is expired."
      ∈ (checkTLS (some ⟨"https:", "example.com", none⟩)
          (.connected ⟨some "TLSv1.3", false, some "DigiCert Inc", .days (-1), []⟩)).warnings :=
  (C6_tls_certificate_expiry ⟨"https:", "example.com", none⟩
      ⟨some "TLSv1.3", false, some "DigiCert Inc", .days (-1), []⟩ rfl rfl).1 (-1) rfl
    (by decide)

/-! ## WHOIS claim-side penalty decomposition -/

/-- Creation-date penalty: 12 when the domain age is under 30 days, else 6
under 180 days; 6 when the creation date is unknown or unparsable. -/
def creationPenalty (creation : DateField) : Int :=
  match resolveDays creation with
  | some age => if age < 30 then 12 else if age < 180 then 6 else 0
  | none => 6

/-- Expiry-date penalty: 10 when days until expiry is at most 0, else 6 at
most 30; 5 when the expiry date is unknown or unparsable. -/
def whoisExpiryPenalty (expiry : DateField) : Int :=
  match resolveDays expiry with
  | some days => if days ≤ 0 then 10 else if days ≤ 30 then 6 else 0
  | none => 5

/-- Registrar penalty: 3 when the registrar field is missing or falsy. -/
def registrarPenalty (registrarField : Option String) : Int :=
  match registrarField with
  | some v => if v = "" then 3 else 0
  | none => 3

/-- C7: on a successful WHOIS lookup with a non-empty record, the score is 25
minus the independent creation-age, expiry and registrar penalties, clamped
to [0, 25]; an unparsable date string takes exactly the same path as an
absent field. -/
theorem C7_whois_scoring (domain : String) (creation expiry : DateField)
    (registrarField : Option String) (nameServers : List String) :
    (checkWhois (.record domain creation expiry registrarField nameServers)).score
      = max 0 (min 25 (25 - creationPenalty creation - whoisExpiryPenalty expiry
          - registrarPenalty registrarField))
  ∧ checkWhois (.record domain .unparsable expiry registrarField nameServers)
      = checkWhois (.record domain .absent expiry registrarField nameServers)
  ∧ checkWhois (.record domain creation .unparsable registrarField nameServers)
      = checkWhois (.record domain creation .absent registrarField nameServers)
  ∧ 0 ≤ (checkWhois (.record domain creation expiry registrarField nameServers)).score
  ∧ (checkWhois (.record domain creation expiry registrarField nameServers)).score ≤ 25 := by
  refine ⟨?_, rfl, rfl, ?_, ?_⟩
  · rcases creation with _ | _ | c <;> rcases expiry with _ | _ | e <;>
      rcases registrarField with _ | r <;>
      simp only [checkWhois, resolveDays, creationPenalty, whoisExpiryPenalty,
        registrarPenalty, finalizeResult, jsTruthy, MAX_SCORE] <;>
      split_ifs <;> simp_all
  · exact (checkWhois_invariant _).1
  · have h := checkWhois_invariant (.record domain creation expiry registrarField nameServers)
    exact h.2.2.1 ▸ h.2.1

/-- C3: every CategoryResult produced by any of the four evaluators, on every
path including fetch-failure paths, has an integer score with
`0 ≤ score ≤ maxScore`, the fixed `maxScore` 25, and `passed` true exactly
when `score ≥ 18`, the fixed passing threshold. -/
theorem C3_category_result_invariant :
    (∀ (url : Option ParsedURL) (conn : ConnOutcome),
        ResultInvariant (checkTLS url conn))
  ∧ (∀ (response : Option Headers) (errMsg : Option String),
        ResultInvariant (checkHeaders response errMsg))
  ∧ (∀ (response : Option (List Cookie)) (errMsg : Option String),
        ResultInvariant (checkCookies response errMsg))
  ∧ (∀ input : WhoisInput, ResultInvariant (checkWhois input)) :=
  ⟨checkTLS_invariant, checkHeaders_invariant, checkCookies_invariant, checkWhois_invariant⟩

/-! ## Overall score -/

/-- `jsRound100` is exactly `Math.round` of the rational `100·s/m`
(`Math.round x = ⌊x + 1/2⌋`, ties toward +∞). -/
theorem jsRound100_eq_floor (s m : Int) (hm : 0 < m) :
    jsRound100 s m = ⌊100 * (s : ℚ) / (m : ℚ) + 1 / 2⌋ := by
  have h2m : (((2 * m).toNat : ℕ) : ℤ) = 2 * m := Int.toNat_of_nonneg (by omega)
  have hmq : (m : ℚ) ≠ 0 := by
    exact_mod_cast hm.ne'
  have hcast : (((2 * m).toNat : ℕ) : ℚ) = 2 * (m : ℚ) := by
    exact_mod_cast h2m
  have key : 100 * (s : ℚ) / (m : ℚ) + 1 / 2
      = ((200 * s + m : ℤ) : ℚ) / (((2 * m).toNat : ℕ) : ℚ) := by
    rw [hcast]
    push_cast
    field_simp
    ring
  rw [key, Rat.floor_intCast_div_natCast, h2m]
  rfl

/-- With the denominator fixed at 100, the rounding formula is the
identity. -/
theorem jsRound100_base100 (s : Int) : jsRound100 s 100 = s := by
  unfold jsRound100
  omega

/-- C1: `summarizeOverall` computes `total = round(100·Σscore/ΣmaxScore)`
(round half-up; 0 when the maxScore sum is 0), and the rating is exactly the
step function of `total` — Dangerous iff `total < 50`, Warning iff
`50 ≤ total < 60`, Safe iff `total ≥ 60`; in particular total 49 yields
Dangerous, 50 and 59 yield Warning, 60 yields Safe. -/
theorem C1_overall_score_and_rating :
    (∀ categories : List CategoryResult, 0 < sumMaxScore categories →
        (summarizeOverall categories).total
          = ⌊100 * (sumScore categories : ℚ) / (sumMaxScore categories : ℚ) + 1 / 2⌋)
  ∧ (∀ categories : List CategoryResult, sumMaxScore categories = 0 →
        (summarizeOverall categories).total = 0)
  ∧ (∀ categories : List CategoryResult,
        ((summarizeOverall categories).rating = "Dangerous"
            ↔ (summarizeOverall categories).total < 50)
      ∧ ((summarizeOverall categories).rating = "Warning"
            ↔ 50 ≤ (summarizeOverall categories).total
              ∧ (summarizeOverall categories).total < 60)
      ∧ ((summarizeOverall categories).rating = "Safe"
            ↔ 60 ≤ (summarizeOverall categories).total))
  ∧ (∀ categories : List CategoryResult,
        ((summarizeOverall categories).total = 49
            → (summarizeOverall categories).rating = "Dangerous")
      ∧ ((summarizeOverall categories).total = 50
            → (summarizeOverall categories).rating = "Warning")
      ∧ ((summarizeOverall categories).total = 59
            → (summarizeOverall categories).rating = "Warning")
      ∧ ((summarizeOverall categories).total = 60
            → (summarizeOverall categories).rating = "Safe")) := by
  have htotal : ∀ categories : List CategoryResult,
      (summarizeOverall categories).total
        = if sumMaxScore categories > 0 then
            jsRound100 (sumScore categories) (sumMaxScore categories)
          else 0 := fun _ => rfl
  have hrating : ∀ categories : List CategoryResult,
      (summarizeOverall categories).rating
        = if (summarizeOverall categories).total < 50 then "Dangerous"
          else if (summarizeOverall categories).total < 60 then "Warning"
          else "Safe" := fun _ => rfl
  refine ⟨?_, ?_, ?_, ?_⟩
  · intro categories hm
    rw [htotal, if_pos hm]
    exact jsRound100_eq_floor _ _ hm
  · intro categories hm
    rw [htotal, hm]
    rfl
  · intro categories
    rw [hrating]
    split_ifs with h1 h2 <;> refine ⟨?_, ?_, ?_⟩ <;> simp <;> omega
  · intro categories
    rw [hrating]
    refine ⟨fun ht => ?_, fun ht => ?_, fun ht => ?_, fun ht => ?_⟩ <;> simp [ht]

/-- A minimal category stub used for concrete boundary witnesses. -/
def scoreStub (n : Int) : CategoryResult :=
  { key := "stub", label := "stub", score := n, maxScore := 25, passed := false,
    warnings := [], details := {} }

/-- C1 witness: concrete four-category lists at the rating boundaries. -/
theorem C1_overall_score_and_rating_witness :
    (summarizeOverall [scoreStub 25, scoreStub 24, scoreStub 0, scoreStub 0]).total
      = ⌊100 * (sumScore [scoreStub 25, scoreStub 24, scoreStub 0, scoreStub 0] : ℚ)
          / (sumMaxScore [scoreStub 25, scoreStub 24, scoreStub 0, scoreStub 0] : ℚ)
          + 1 / 2⌋
  ∧ (summarizeOverall [scoreStub 25, scoreStub 24, scoreStub 0, scoreStub 0]).rating
      = "Dangerous"
  ∧ (summarizeOverall [scoreStub 25, scoreStub 25, scoreStub 0, scoreStub 0]).rating
      = "Warning"
  ∧ (summarizeOverall [scoreStub 25, scoreStub 25, scoreStub 9, scoreStub 0]).rating
      = "Warning"
  ∧ (summarizeOverall [scoreStub 25, scoreStub 25, scoreStub 10, scoreStub 0]).rating
      = "Safe" :=
  ⟨C1_overall_score_and_rating.1 _ (by decide),
    (C1_overall_score_and_rating.2.2.2 _).1 (by decide),
    (C1_overall_score_and_rating.2.2.2 _).2.1 (by decide),
    (C1_overall_score_and_rating.2.2.2 _).2.2.1 (by decide),
    (C1_overall_score_and_rating.2.2.2 _).2.2.2 (by decide)⟩

theorem settleTask_maxScore (o : TaskOutcome) (t : TaskSpec) (v : CategoryResult)
    (hv : v.maxScore = 25) (ht : t.maxScore = 25) :
    (settleTask o t v).maxScore = 25 := by
  cases o <;> simp [settleTask, fallbackResult, hv, ht]

theorem settleTask_score_bounds (o : TaskOutcome) (t : TaskSpec) (v : CategoryResult)
    (hv : 0 ≤ v.score ∧ v.score ≤ 25) :
    0 ≤ (settleTask o t v).score ∧ (settleTask o t v).score ≤ 25 := by
  cases o <;> simp [settleTask, fallbackResult, hv.1, hv.2]

theorem settleTask_key (o : TaskOutcome) (t : TaskSpec) (v : CategoryResult)
    (hv : v.key = t.key) : (settleTask o t v).key = t.key := by
  cases o <;> simp [settleTask, fallbackResult, hv]

/-- C2: the `categories` array always has exactly four entries in the fixed
task order tls, headers, cookies, whois; a rejected evaluator promise is
replaced (at its own position only) by the zero-score fallback whose warnings
begin with `Check failed to complete.` followed by the fault message when one
is present, while the other entries are the results of the evaluators. -/
theorem C2_allSettled_order_and_fallback
    (tlsUrl : Option ParsedURL) (tlsConn : ConnOutcome)
    (headersResp : Option Headers) (headersErr : Option String)
    (cookiesResp : Option (List Cookie)) (cookiesErr : Option String)
    (whoisIn : WhoisInput) (o1 o2 o3 o4 : TaskOutcome) (m : Option String) :
    (runCategories tlsUrl tlsConn headersResp headersErr cookiesResp cookiesErr
        whoisIn o1 o2 o3 o4).length = 4
  ∧ (runCategories tlsUrl tlsConn headersResp headersErr cookiesResp cookiesErr
        whoisIn o1 o2 o3 o4).map (·.key) = ["tls", "headers", "cookies", "whois"]
  ∧ runCategories tlsUrl tlsConn headersResp headersErr cookiesResp cookiesErr
        whoisIn (.rejected m) o2 o3 o4
      = (runCategories tlsUrl tlsConn headersResp headersErr cookiesResp cookiesErr
          whoisIn .fulfilled o2 o3 o4).set 0 (fallbackResult tlsTask m)
  ∧ runCategories tlsUrl tlsConn headersResp headersErr cookiesResp cookiesErr
        whoisIn o1 (.rejected m) o3 o4
      = (runCategories tlsUrl tlsConn headersResp headersErr cookiesResp cookiesErr
          whoisIn o1 .fulfilled o3 o4).set 1 (fallbackResult headersTask m)
  ∧ runCategories tlsUrl tlsConn headersResp headersErr cookiesResp cookiesErr
        whoisIn o1 o2 (.rejected m) o4
      = (runCategories tlsUrl tlsConn headersResp headersErr cookiesResp cookiesErr
          whoisIn o1 o2 .fulfilled o4).set 2 (fallbackResult cookiesTask m)
  ∧ runCategories tlsUrl tlsConn headersResp headersErr cookiesResp cookiesErr
        whoisIn o1 o2 o3 (.rejected m)
      = (runCategories tlsUrl tlsConn headersResp headersErr cookiesResp cookiesErr
          whoisIn o1 o2 o3 .fulfilled).set 3 (fallbackResult whoisTask m)
  ∧ (∀ t : TaskSpec, (fallbackResult t m).score = 0
      ∧ (fallbackResult t m).maxScore = t.maxScore
      ∧ (fallbackResult t m).passed = false
      ∧ (fallbackResult t m).warnings.head? = some "Check failed to complete."
      ∧ ∀ s : String, s ≠ "" →
          (fallbackResult t (some s)).warnings = ["Check failed to complete.", s]) := by
  have k1 : (settleTask o1 tlsTask (checkTLS tlsUrl tlsConn)).key = "tls" :=
    settleTask_key _ _ _ (checkTLS_key ..)
  have k2 : (settleTask o2 headersTask (checkHeaders headersResp headersErr)).key
      = "headers" := settleTask_key _ _ _ (checkHeaders_key ..)
  have k3 : (settleTask o3 cookiesTask (checkCookies cookiesResp cookiesErr)).key
      = "cookies" := settleTask_key _ _ _ (checkCookies_key ..)
  have k4 : (settleTask o4 whoisTask (checkWhois whoisIn)).key = "whois" :=
    settleTask_key _ _ _ (checkWhois_key ..)
  refine ⟨rfl, ?_, rfl, rfl, rfl, rfl, ?_⟩
  · simp only [runCategories, List.map_cons, List.map_nil, k1, k2, k3, k4]
  · intro t
    refine ⟨rfl, rfl, rfl, rfl, ?_⟩
    intro s hs
    simp [fallbackResult, truthyToList, hs]

/-- C2 witness: a concrete request where the headers task rejects with
message `boom` while the others fulfill. -/
theorem C2_allSettled_order_and_fallback_witness :
    (runCategories none .timedOut none none none none .invalidUrl
        .fulfilled (.rejected (some "boom")) .fulfilled .fulfilled).map (·.key)
      = ["tls", "headers", "cookies", "whois"]
  ∧ (fallbackResult headersTask (some "boom")).warnings
      = ["Check failed to complete.", "boom"] := by
  have h := C2_allSettled_order_and_fallback none .timedOut none none none none
    .invalidUrl .fulfilled (.rejected (some "boom")) .fulfilled .fulfilled (some "boom")
  exact ⟨h.2.1, (h.2.2.2.2.2.2 headersTask).2.2.2.2 "boom" (by decide)⟩

/-- C10: every one of the four category entries — evaluator result or
rejection fallback — carries maxScore 25, so the maxScore sum is 100, the
overall total is exactly the plain sum of the four category scores (the
division and rounding are the identity on this input), and
`0 ≤ total ≤ 100`. -/
theorem C10_fixed_maxscore_and_total
    (tlsUrl : Option ParsedURL) (tlsConn : ConnOutcome)
    (headersResp : Option Headers) (headersErr : Option String)
    (cookiesResp : Option (List Cookie)) (cookiesErr : Option String)
    (whoisIn : WhoisInput) (o1 o2 o3 o4 : TaskOutcome) :
    (∀ c ∈ runCategories tlsUrl tlsConn headersResp headersErr cookiesResp cookiesErr
        whoisIn o1 o2 o3 o4, c.maxScore = 25)
  ∧ sumMaxScore (runCategories tlsUrl tlsConn headersResp headersErr cookiesResp
        cookiesErr whoisIn o1 o2 o3 o4) = 100
  ∧ (summarizeOverall (runCategories tlsUrl tlsConn headersResp headersErr cookiesResp
        cookiesErr whoisIn o1 o2 o3 o4)).total
      = sumScore (runCategories tlsUrl tlsConn headersResp headersErr cookiesResp
          cookiesErr whoisIn o1 o2 o3 o4)
  ∧ 0 ≤ (summarizeOverall (runCategories tlsUrl tlsConn headersResp headersErr
        cookiesResp cookiesErr whoisIn o1 o2 o3 o4)).total
  ∧ (summarizeOverall (runCategories tlsUrl tlsConn headersResp headersErr cookiesResp
        cookiesErr whoisIn o1 o2 o3 o4)).total ≤ 100 := by
  have m1 := settleTask_maxScore o1 tlsTask (checkTLS tlsUrl tlsConn)
    (checkTLS_invariant ..).2.2.1 rfl
  have m2 := settleTask_maxScore o2 headersTask (checkHeaders headersResp headersErr)
    (checkHeaders_invariant ..).2.2.1 rfl
  have m3 := settleTask_maxScore o3 cookiesTask (checkCookies cookiesResp cookiesErr)
    (checkCookies_invariant ..).2.2.1 rfl
  have m4 := settleTask_maxScore o4 whoisTask (checkWhois whoisIn)
    (checkWhois_invariant ..).2.2.1 rfl
  have s1 := settleTask_score_bounds o1 tlsTask (checkTLS tlsUrl tlsConn)
    ⟨(checkTLS_invariant ..).1,
      (checkTLS_invariant ..).2.2.1 ▸ (checkTLS_invariant ..).2.1⟩
  have s2 := settleTask_score_bounds o2 headersTask (checkHeaders headersResp headersErr)
    ⟨(checkHeaders_invariant ..).1,
      (checkHeaders_invariant ..).2.2.1 ▸ (checkHeaders_invariant ..).2.1⟩
  have s3 := settleTask_score_bounds o3 cookiesTask (checkCookies cookiesResp cookiesErr)
    ⟨(checkCookies_invariant ..).1,
      (checkCookies_invariant ..).2.2.1 ▸ (checkCookies_invariant ..).2.1⟩
  have s4 := settleTask_score_bounds o4 whoisTask (checkWhois whoisIn)
    ⟨(checkWhois_invariant ..).1,
      (checkWhois_invariant ..).2.2.1 ▸ (checkWhois_invariant ..).2.1⟩
  have hmax : sumMaxScore (runCategories tlsUrl tlsConn headersResp headersErr
      cookiesResp cookiesErr whoisIn o1 o2 o3 o4) = 100 := by
    simp [sumMaxScore, runCategories, m1, m2, m3, m4]
  have hsum : sumScore (runCategories tlsUrl tlsConn headersResp headersErr
      cookiesResp cookiesErr whoisIn o1 o2 o3 o4)
      = (settleTask o1 tlsTask (checkTLS tlsUrl tlsConn)).score
        + (settleTask o2 headersTask (checkHeaders headersResp headersErr)).score
        + (settleTask o3 cookiesTask (checkCookies cookiesResp cookiesErr)).score
        + (settleTask o4 whoisTask (checkWhois whoisIn)).score := by
    simp [sumScore, runCategories]
  have htotal : (summarizeOverall (runCategories tlsUrl tlsConn headersResp headersErr
      cookiesResp cookiesErr whoisIn o1 o2 o3 o4)).total
      = sumScore (runCategories tlsUrl tlsConn headersResp headersErr cookiesResp
          cookiesErr whoisIn o1 o2 o3 o4) := by
    show (if _ > 0 then _ else _) = _
    rw [hmax]
    simp [jsRound100_base100]
  refine ⟨?_, hmax, htotal, ?_, ?_⟩
  · intro c hc
    simp only [runCategories, List.mem_cons, List.not_mem_nil, or_false] at hc
    rcases hc with rfl | rfl | rfl | rfl
    · exact m1
    · exact m2
    · exact m3
    · exact m4
  · rw [htotal, hsum]
    omega
  · rw [htotal, hsum]
    omega

/-- C10 witness: a concrete request with all four tasks fulfilled. -/
theorem C10_fixed_maxscore_and_total_witness :
    (settleTask .fulfilled tlsTask (checkTLS none .timedOut)).maxScore = 25
  ∧ (summarizeOverall (runCategories none .timedOut none none none none .invalidUrl
        .fulfilled .fulfilled .fulfilled .fulfilled)).total ≤ 100 :=
  ⟨(C10_fixed_maxscore_and_total none .timedOut none none none none .invalidUrl
      .fulfilled .fulfilled .fulfilled .fulfilled).1 _ (List.mem_cons_self _ _),
    (C10_fixed_maxscore_and_total none .timedOut none none none none .invalidUrl
      .fulfilled .fulfilled .fulfilled .fulfilled).2.2.2.2⟩

end URLChecker
